import Mathlib

/-!
Verification of the EthernetCellularRK connectivity-arbitration controller.

Shallow embedding of `EthernetCellularRK.cpp` / `EthernetCellularRK.h`:
the singleton `EthernetCellular` object becomes a record, each
`stateXXX` member function becomes a pure function from the record and an
environment snapshot (the collaborator statuses the function queries:
`Ethernet`, `Cellular`, `Particle`, `millis()`) to the updated record plus
the list of commands issued to collaborators, in program order.  The
`stateHandler` member (a pointer to one of the ten state member functions
in the C++ source) becomes the enumeration `State`; `loop()` dispatches on
it.  `unsigned long` arithmetic on `millis()` values is 32-bit, modelled
with explicit `% 2 ^ 32`.
-/

namespace EthernetCellularRK

/-- `EthernetCellular::ActiveInterface` (header, lines 78-82). -/
inductive ActiveInterface : Type
  | NONE
  | ETHERNET
  | CELLULAR
deriving DecidableEq, Repr

/-- The ten state member functions that the C++ source ever assigns to
`stateHandler` (every assignment in `EthernetCellularRK.cpp` stores the
address of one of these). -/
inductive State : Type
  | start
  | tryEthernet
  | waitEthernetReady
  | waitEthernetCloud
  | ethernetCloudConnected
  | tryCellular
  | waitCellularReady
  | waitCellularCloud
  | cellularCloudConnected
  | cellularWaitDisconnectedThenTryEthernet
deriving DecidableEq, Repr

/-- The three LED signals whose colors `stateTryCellular` overrides. -/
inductive LEDSignal : Type
  | cloudConnecting
  | cloudHandshake
  | cloudConnected
deriving DecidableEq, Repr

/-- Commands issued to collaborators during one `loop()` call, in program
order, plus the interface-change callback invocation. -/
inductive Event : Type
  | enableEthernetDetection
  | ethernetConnect
  | ethernetDisconnect
  | cellularConnect
  | cellularDisconnect
  | particleConnect
  | particleDisconnect
  | particleKeepAlive (seconds : Int)
  | themeSetColor (signal : LEDSignal) (color : Nat)
  | themeApply
  | themeRestoreDefault
  | notifyInterfaceChange (oldInterface newInterface : ActiveInterface)
deriving DecidableEq, Repr

/-- Device OS constant `RGB_COLOR_CYAN` (the "use default theme" sentinel). -/
def RGB_COLOR_CYAN : Nat := 0x0000ffff

/-- Device OS constant `RGB_COLOR_YELLOW` (default `cellularBackupColor`). -/
def RGB_COLOR_YELLOW : Nat := 0x00ffff00

/-- Modulus of the 32-bit `unsigned long` used for `millis()` values
(2 ^ 32). -/
def UINT32_MOD : Nat := 4294967296

/-- Reduction of a clock reading to its 32-bit `unsigned long` value. -/
def m32 (n : Nat) : Nat := n % UINT32_MOD

/-- The controller's elapsed-time computation `millis() - stateTime`:
wrapping unsigned 32-bit subtraction. -/
def usub32 (now t : Nat) : Nat := (m32 now + UINT32_MOD - m32 t) % UINT32_MOD

/-- One snapshot of everything the state functions query from their
collaborators during a single `loop()` call. -/
structure Env : Type where
  featureEthernetDetection : Bool := true
  ethernetMacPresent : Bool := false
  ethernetReady : Bool := false
  cellularReady : Bool := false
  particleConnected : Bool := false
  particleDisconnected : Bool := false
  millis : Nat := 0
deriving DecidableEq, Repr

/-- The `EthernetCellular` singleton's data members, with the in-class
default initializers of `EthernetCellularRK.h` (lines 477-595).  The
chrono durations are stored as their `count()` (seconds or milliseconds),
an at-least-35-bit signed integral type, modelled as `Int`.  The
`std::function` callback member is modelled by whether a callback is
registered; its invocations appear as `Event.notifyInterfaceChange`. -/
structure EthernetCellular : Type where
  stateHandler : State := State.start
  ethernetPresent : Bool := false
  stateTime : Nat := 0
  ethernetKeepAlive : Int := 25
  cellularKeepAlive : Int := 23 * 60
  retryEthernetPeriod : Int := 5 * 60 * 1000
  cellularConnectTimeout : Int := 5 * 60 * 1000
  cellularCloudConnectTimeout : Int := 2 * 60 * 1000
  ethernetConnectTimeout : Int := 30 * 1000
  ethernetCloudConnectTimeout : Int := 30 * 1000
  cellularBackupColor : Nat := RGB_COLOR_YELLOW
  activeInterface : ActiveInterface := ActiveInterface.NONE
  interfaceChangeCallback : Bool := false
deriving DecidableEq, Repr

/-- `EthernetCellular::setActiveInterface` (cpp, lines 37-46): stores the
new value; when it differs from the old one and a callback is registered,
invokes the callback with the (old, new) pair. -/
def setActiveInterface (ec : EthernetCellular) (newInterface : ActiveInterface) :
    EthernetCellular × List Event :=
  ({ ec with activeInterface := newInterface },
    if ec.activeInterface ≠ newInterface then
      if ec.interfaceChangeCallback then
        [Event.notifyInterfaceChange ec.activeInterface newInterface]
      else []
    else [])

/-- `stateStart` (cpp, lines 49-72). -/
def stateStart (ec : EthernetCellular) (env : Env) : EthernetCellular × List Event :=
  let evs := if !env.featureEthernetDetection then [Event.enableEthernetDetection] else []
  let ec := if env.ethernetMacPresent then { ec with ethernetPresent := true } else ec
  if ec.ethernetPresent then
    ({ ec with stateHandler := State.tryEthernet }, evs)
  else
    ({ ec with stateHandler := State.tryCellular }, evs)

/-- `stateTryEthernet` (cpp, lines 73-82). -/
def stateTryEthernet (ec : EthernetCellular) (env : Env) : EthernetCellular × List Event :=
  let p := setActiveInterface ec ActiveInterface.NONE
  ({ p.1 with stateTime := m32 env.millis, stateHandler := State.waitEthernetReady },
    Event.themeRestoreDefault :: p.2 ++ [Event.cellularDisconnect, Event.ethernetConnect])

/-- `stateWaitEthernetReady` (cpp, lines 84-98). -/
def stateWaitEthernetReady (ec : EthernetCellular) (env : Env) : EthernetCellular × List Event :=
  if env.ethernetReady then
    ({ ec with stateHandler := State.waitEthernetCloud }, [Event.particleConnect])
  else if (usub32 env.millis ec.stateTime : Int) ≥ ec.ethernetConnectTimeout then
    ({ ec with stateHandler := State.tryCellular }, [])
  else
    (ec, [])

/-- `stateWaitEthernetCloud` (cpp, lines 100-119). -/
def stateWaitEthernetCloud (ec : EthernetCellular) (env : Env) : EthernetCellular × List Event :=
  if env.particleConnected then
    let p := setActiveInterface ec ActiveInterface.ETHERNET
    ({ p.1 with stateTime := m32 env.millis, stateHandler := State.ethernetCloudConnected },
      p.2 ++ [Event.particleKeepAlive ec.ethernetKeepAlive])
  else if (usub32 env.millis ec.stateTime : Int) ≥ ec.ethernetCloudConnectTimeout then
    ({ ec with stateHandler := State.tryCellular },
      [Event.particleDisconnect, Event.ethernetDisconnect])
  else
    (ec, [])

/-- `stateEthernetCloudConnected` (cpp, lines 121-129). -/
def stateEthernetCloudConnected (ec : EthernetCellular) (env : Env) :
    EthernetCellular × List Event :=
  if !env.particleConnected then
    ({ ec with stateHandler := State.waitEthernetCloud, stateTime := m32 env.millis }, [])
  else
    (ec, [])

/-- `stateTryCellular` (cpp, lines 132-152). -/
def stateTryCellular (ec : EthernetCellular) (env : Env) : EthernetCellular × List Event :=
  let p := setActiveInterface ec ActiveInterface.NONE
  let themeEvs :=
    if p.1.cellularBackupColor ≠ RGB_COLOR_CYAN then
      [Event.themeSetColor LEDSignal.cloudConnecting p.1.cellularBackupColor,
        Event.themeSetColor LEDSignal.cloudHandshake p.1.cellularBackupColor,
        Event.themeSetColor LEDSignal.cloudConnected p.1.cellularBackupColor,
        Event.themeApply]
    else
      [Event.themeRestoreDefault]
  ({ p.1 with stateTime := m32 env.millis, stateHandler := State.waitCellularReady },
    p.2 ++ themeEvs ++ [Event.ethernetDisconnect, Event.cellularConnect])

/-- `stateWaitCellularReady` (cpp, lines 154-172). -/
def stateWaitCellularReady (ec : EthernetCellular) (env : Env) : EthernetCellular × List Event :=
  if env.cellularReady then
    ({ ec with stateHandler := State.waitCellularCloud }, [Event.particleConnect])
  else if (usub32 env.millis ec.stateTime : Int) ≥ ec.cellularConnectTimeout then
    if ec.ethernetPresent then
      ({ ec with stateHandler := State.tryEthernet }, [])
    else
      (ec, [])
  else
    (ec, [])

/-- `stateWaitCellularCloud` (cpp, lines 174-196). -/
def stateWaitCellularCloud (ec : EthernetCellular) (env : Env) : EthernetCellular × List Event :=
  if env.particleConnected then
    let p := setActiveInterface ec ActiveInterface.CELLULAR
    ({ p.1 with stateTime := m32 env.millis, stateHandler := State.cellularCloudConnected },
      Event.particleKeepAlive ec.cellularKeepAlive :: p.2)
  else if (usub32 env.millis ec.stateTime : Int) ≥ ec.cellularCloudConnectTimeout then
    if ec.ethernetPresent then
      ({ ec with stateHandler := State.tryEthernet }, [Event.particleDisconnect])
    else
      (ec, [])
  else
    (ec, [])

/-- `stateCellularCloudConnected` (cpp, lines 198-221). -/
def stateCellularCloudConnected (ec : EthernetCellular) (env : Env) :
    EthernetCellular × List Event :=
  if !env.particleConnected then
    ({ ec with stateHandler := State.waitCellularCloud, stateTime := m32 env.millis }, [])
  else if (usub32 env.millis ec.stateTime : Int) ≥ ec.retryEthernetPeriod then
    if ec.ethernetPresent then
      let p := setActiveInterface ec ActiveInterface.NONE
      ({ p.1 with stateHandler := State.cellularWaitDisconnectedThenTryEthernet },
        Event.particleDisconnect :: p.2)
    else
      (ec, [])
  else
    (ec, [])

/-- `stateCellularWaitDisconnectedThenTryEthernet` (cpp, lines 223-228). -/
def stateCellularWaitDisconnectedThenTryEthernet (ec : EthernetCellular) (env : Env) :
    EthernetCellular × List Event :=
  if env.particleDisconnected then
    ({ ec with stateHandler := State.tryEthernet }, [])
  else
    (ec, [])

/-- `EthernetCellular::loop` (cpp, lines 32-34): one call to the current
state handler. -/
def loop (ec : EthernetCellular) (env : Env) : EthernetCellular × List Event :=
  match ec.stateHandler with
  | State.start => stateStart ec env
  | State.tryEthernet => stateTryEthernet ec env
  | State.waitEthernetReady => stateWaitEthernetReady ec env
  | State.waitEthernetCloud => stateWaitEthernetCloud ec env
  | State.ethernetCloudConnected => stateEthernetCloudConnected ec env
  | State.tryCellular => stateTryCellular ec env
  | State.waitCellularReady => stateWaitCellularReady ec env
  | State.waitCellularCloud => stateWaitCellularCloud ec env
  | State.cellularCloudConnected => stateCellularCloudConnected ec env
  | State.cellularWaitDisconnectedThenTryEthernet =>
      stateCellularWaitDisconnectedThenTryEthernet ec env

/-- A sequence of `loop()` calls, one per environment snapshot. -/
def runLoop (ec : EthernetCellular) (envs : List Env) : EthernetCellular :=
  envs.foldl (fun e env => (loop e env).1) ec

/-- The callback invocations among the events of one `loop()` call. -/
def notifyEvents (evs : List Event) : List Event :=
  evs.filter fun e =>
    match e with
    | Event.notifyInterfaceChange _ _ => true
    | _ => false

/-- `withEthernetKeepAlive` (header, line 130). -/
def withEthernetKeepAlive (ec : EthernetCellular) (value : Int) : EthernetCellular :=
  { ec with ethernetKeepAlive := value }

/-- Truncation of a signed integral value to 32-bit `int` (wrap modulo
2 ^ 32 into [-2 ^ 31, 2 ^ 31)), as done by the `(int)` casts in the
configuration getters. -/
def toInt32 (v : Int) : Int := (v + 2147483648) % 4294967296 - 2147483648

/-- `getEthernetKeepAlive` (header, line 135): `(int)ethernetKeepAlive.count()`. -/
def getEthernetKeepAlive (ec : EthernetCellular) : Int := toInt32 ec.ethernetKeepAlive

/-- `withCellularKeepAlive` (header, line 162). -/
def withCellularKeepAlive (ec : EthernetCellular) (value : Int) : EthernetCellular :=
  { ec with cellularKeepAlive := value }

/-- `getCellularKeepAlive` (header, line 167). -/
def getCellularKeepAlive (ec : EthernetCellular) : Int := toInt32 ec.cellularKeepAlive

/-- `withRetryEthernetPeriod` (header, line 189). -/
def withRetryEthernetPeriod (ec : EthernetCellular) (value : Int) : EthernetCellular :=
  { ec with retryEthernetPeriod := value }

/-- `getRetryEthernetPeriod` (header, line 194). -/
def getRetryEthernetPeriod (ec : EthernetCellular) : Int := toInt32 ec.retryEthernetPeriod

/-- `withCellularConnectTimeout` (header, line 213). -/
def withCellularConnectTimeout (ec : EthernetCellular) (value : Int) : EthernetCellular :=
  { ec with cellularConnectTimeout := value }

/-- `getCellularConnectTimeout` (header, line 218). -/
def getCellularConnectTimeout (ec : EthernetCellular) : Int := toInt32 ec.cellularConnectTimeout

/-- `withCellularCloudConnectTimeout` (header, line 236). -/
def withCellularCloudConnectTimeout (ec : EthernetCellular) (value : Int) : EthernetCellular :=
  { ec with cellularCloudConnectTimeout := value }

/-- `getCellularCloudConnectTimeout` (header, line 241). -/
def getCellularCloudConnectTimeout (ec : EthernetCellular) : Int :=
  toInt32 ec.cellularCloudConnectTimeout

/-- `withEthernetConnectTimeout` (header, line 260). -/
def withEthernetConnectTimeout (ec : EthernetCellular) (value : Int) : EthernetCellular :=
  { ec with ethernetConnectTimeout := value }

/-- `getEthernetConnectTimeout` (header, line 265). -/
def getEthernetConnectTimeout (ec : EthernetCellular) : Int := toInt32 ec.ethernetConnectTimeout

/-- `withEthernetCloudConnectTimeout` (header, line 283). -/
def withEthernetCloudConnectTimeout (ec : EthernetCellular) (value : Int) : EthernetCellular :=
  { ec with ethernetCloudConnectTimeout := value }

/-- `getEthernetCloudConnectTimeout` (header, line 288). -/
def getEthernetCloudConnectTimeout (ec : EthernetCellular) : Int :=
  toInt32 ec.ethernetCloudConnectTimeout

/-- `withCellularBackupColor` (header, line 307); the parameter is a
`uint32_t`, so the stored value is the argument reduced mod `2 ^ 32`. -/
def withCellularBackupColor (ec : EthernetCellular) (value : Nat) : EthernetCellular :=
  { ec with cellularBackupColor := value % UINT32_MOD }

/-- `getCellularBackupColor` (header, line 315). -/
def getCellularBackupColor (ec : EthernetCellular) : Nat := ec.cellularBackupColor

/-- `getActiveInterface` (header, line 320). -/
def getActiveInterface (ec : EthernetCellular) : ActiveInterface := ec.activeInterface

/-- `withInterfaceChangeCallback` (header, lines 327-330): registers the
single callback slot. -/
def withInterfaceChangeCallback (ec : EthernetCellular) : EthernetCellular :=
  { ec with interfaceChangeCallback := true }

/-- The freshly constructed singleton: every member at its in-class default. -/
def initialController : EthernetCellular := {}

/-- The relation between `stateHandler` and `activeInterface` that actually
holds on every reachable controller state: `activeInterface` is NONE in the
Start, WaitReady and WaitDisconnected states, matches the interface in the
two CloudConnected states, and in the WaitCloud states (and in the Try state
of the opposite interface) it is either NONE or the value left over from
the cloud session that was just lost. -/
def interfaceInvariant (ec : EthernetCellular) : Prop :=
  match ec.stateHandler with
  | State.start => ec.activeInterface = ActiveInterface.NONE
  | State.tryEthernet =>
      ec.activeInterface = ActiveInterface.NONE ∨
      ec.activeInterface = ActiveInterface.CELLULAR
  | State.waitEthernetReady => ec.activeInterface = ActiveInterface.NONE
  | State.waitEthernetCloud =>
      ec.activeInterface = ActiveInterface.NONE ∨
      ec.activeInterface = ActiveInterface.ETHERNET
  | State.ethernetCloudConnected => ec.activeInterface = ActiveInterface.ETHERNET
  | State.tryCellular =>
      ec.activeInterface = ActiveInterface.NONE ∨
      ec.activeInterface = ActiveInterface.ETHERNET
  | State.waitCellularReady => ec.activeInterface = ActiveInterface.NONE
  | State.waitCellularCloud =>
      ec.activeInterface = ActiveInterface.NONE ∨
      ec.activeInterface = ActiveInterface.CELLULAR
  | State.cellularCloudConnected => ec.activeInterface = ActiveInterface.CELLULAR
  | State.cellularWaitDisconnectedThenTryEthernet =>
      ec.activeInterface = ActiveInterface.NONE

theorem interfaceInvariant_loop (ec : EthernetCellular) (env : Env)
    (h : interfaceInvariant ec) : interfaceInvariant (loop ec env).1 := by
  obtain ⟨sh, ep, st, eka, cka, rep, cct, ccct, ect, ecct, cbc, ai, cb⟩ := ec
  cases sh <;> cases ai <;>
    simp_all [interfaceInvariant, loop, stateStart, stateTryEthernet, stateWaitEthernetReady,
      stateWaitEthernetCloud, stateEthernetCloudConnected, stateTryCellular,
      stateWaitCellularReady, stateWaitCellularCloud, stateCellularCloudConnected,
      stateCellularWaitDisconnectedThenTryEthernet, setActiveInterface] <;>
    split_ifs <;> simp_all [interfaceInvariant]

theorem interfaceInvariant_runLoop (ec : EthernetCellular) (envs : List Env)
    (h : interfaceInvariant ec) : interfaceInvariant (runLoop ec envs) := by
  induction envs generalizing ec with
  | nil => exact h
  | cons env envs ih => exact ih (loop ec env).1 (interfaceInvariant_loop ec env h)

/-- The run of six `loop()` calls refuting claim C1 as stated: connect the
cloud over Ethernet, lose the cloud session, and let the Ethernet cloud
reconnect time out 30000 ms later. -/
def c1Envs : List Env :=
  [ { ethernetMacPresent := true },
    {},
    { ethernetReady := true },
    { particleConnected := true },
    {},
    { millis := 30000 } ]

/-- C1, counterexample: after the six-call run `c1Envs` from the freshly
constructed controller, the current state is TryCellular (TryWireless) while
`activeInterface` is still ETHERNET, refuting both "activeInterface is NONE
whenever the current state is one of {Start, TryWired, TryWireless}" and
"activeInterface is WIRED only while the current state is
WiredCloudConnected" (after five calls the same run already has
`activeInterface = ETHERNET` in state WaitEthernetCloud). -/
theorem c1_counterexample :
    ¬ ((((runLoop initialController c1Envs).stateHandler = State.start ∨
          (runLoop initialController c1Envs).stateHandler = State.tryEthernet ∨
          (runLoop initialController c1Envs).stateHandler = State.tryCellular) →
          (runLoop initialController c1Envs).activeInterface = ActiveInterface.NONE) ∧
        ((runLoop initialController c1Envs).activeInterface = ActiveInterface.ETHERNET →
          (runLoop initialController c1Envs).stateHandler = State.ethernetCloudConnected)) := by
  decide

/-- C1 (amended): for every sequence of `loop()` calls from the initial
state, `activeInterface` is NONE whenever the current state is Start,
WaitWiredReady, WaitWirelessReady or WirelessWaitDisconnectThenTryWired; it
is the corresponding interface in the two ...CloudConnected states; and it
is WIRED (ETHERNET) only in {WiredCloudConnected, WaitWiredCloud,
TryWireless} and WIRELESS (CELLULAR) only in {WirelessCloudConnected,
WaitWirelessCloud, TryWired} (the value persisting through a WaitCloud state
after a cloud drop, until the next Try state resets it to NONE). -/
theorem c1_interface_state_invariant (ec0 : EthernetCellular) (envs : List Env)
    (h0 : ec0.stateHandler = State.start)
    (h1 : ec0.activeInterface = ActiveInterface.NONE) :
    (((runLoop ec0 envs).stateHandler = State.start ∨
        (runLoop ec0 envs).stateHandler = State.waitEthernetReady ∨
        (runLoop ec0 envs).stateHandler = State.waitCellularReady ∨
        (runLoop ec0 envs).stateHandler = State.cellularWaitDisconnectedThenTryEthernet) →
      (runLoop ec0 envs).activeInterface = ActiveInterface.NONE) ∧
    ((runLoop ec0 envs).stateHandler = State.ethernetCloudConnected →
      (runLoop ec0 envs).activeInterface = ActiveInterface.ETHERNET) ∧
    ((runLoop ec0 envs).stateHandler = State.cellularCloudConnected →
      (runLoop ec0 envs).activeInterface = ActiveInterface.CELLULAR) ∧
    ((runLoop ec0 envs).activeInterface = ActiveInterface.ETHERNET →
      (runLoop ec0 envs).stateHandler = State.waitEthernetCloud ∨
      (runLoop ec0 envs).stateHandler = State.ethernetCloudConnected ∨
      (runLoop ec0 envs).stateHandler = State.tryCellular) ∧
    ((runLoop ec0 envs).activeInterface = ActiveInterface.CELLULAR →
      (runLoop ec0 envs).stateHandler = State.waitCellularCloud ∨
      (runLoop ec0 envs).stateHandler = State.cellularCloudConnected ∨
      (runLoop ec0 envs).stateHandler = State.tryEthernet) := by
  have h : interfaceInvariant (runLoop ec0 envs) := by
    apply interfaceInvariant_runLoop
    unfold interfaceInvariant
    rw [h0]
    exact h1
  unfold interfaceInvariant at h
  cases hs : (runLoop ec0 envs).stateHandler <;> rw [hs] at h <;> simp at h <;>
    (try rcases h with h | h) <;> simp_all

/-- C1 witness: the amended invariant instantiated on the freshly
constructed controller and the concrete run `c1Envs`. -/
theorem c1_interface_state_invariant_witness :
    ((runLoop initialController c1Envs).activeInterface = ActiveInterface.ETHERNET →
      (runLoop initialController c1Envs).stateHandler = State.waitEthernetCloud ∨
      (runLoop initialController c1Envs).stateHandler = State.ethernetCloudConnected ∨
      (runLoop initialController c1Envs).stateHandler = State.tryCellular) ∧
    ((runLoop initialController c1Envs).stateHandler = State.cellularCloudConnected →
      (runLoop initialController c1Envs).activeInterface = ActiveInterface.CELLULAR) :=
  ⟨(c1_interface_state_invariant initialController c1Envs rfl rfl).2.2.2.1,
    (c1_interface_state_invariant initialController c1Envs rfl rfl).2.2.1⟩

/-- C2: during one `loop()` call the registered interface-change callback is
invoked exactly once when the call changes `activeInterface` — with the (old
value, new value) pair, inline in the event sequence of that same call — and
is not invoked when the call leaves `activeInterface` unchanged, nor when no
callback is registered. -/
theorem c2_callback_exactly_on_change (ec : EthernetCellular) (env : Env) :
    notifyEvents (loop ec env).2 =
      if ec.interfaceChangeCallback = true ∧
          (loop ec env).1.activeInterface ≠ ec.activeInterface then
        [Event.notifyInterfaceChange ec.activeInterface (loop ec env).1.activeInterface]
      else [] := by
  obtain ⟨sh, ep, st, eka, cka, rep, cct, ccct, ect, ecct, cbc, ai, cb⟩ := ec
  cases sh <;>
    simp only [loop, stateStart, stateTryEthernet, stateWaitEthernetReady,
      stateWaitEthernetCloud, stateEthernetCloudConnected, stateTryCellular,
      stateWaitCellularReady, stateWaitCellularCloud, stateCellularCloudConnected,
      stateCellularWaitDisconnectedThenTryEthernet, setActiveInterface] <;>
    split_ifs <;>
    simp_all [notifyEvents, List.filter]

/-- With no Ethernet adapter detected, the controller only ever occupies
the four cellular-side states. -/
def cellularOnlyStates (ec : EthernetCellular) : Prop :=
  ec.stateHandler = State.tryCellular ∨ ec.stateHandler = State.waitCellularReady ∨
  ec.stateHandler = State.waitCellularCloud ∨ ec.stateHandler = State.cellularCloudConnected

theorem cellularOnlyStates_loop (ec : EthernetCellular) (env : Env)
    (hp : ec.ethernetPresent = false) (h : cellularOnlyStates ec) :
    cellularOnlyStates (loop ec env).1 ∧ (loop ec env).1.ethernetPresent = false := by
  obtain ⟨sh, ep, st, eka, cka, rep, cct, ccct, ect, ecct, cbc, ai, cb⟩ := ec
  simp only at hp
  subst hp
  rcases h with h | h | h | h <;> simp only at h <;> subst h <;>
    simp only [loop, stateTryCellular, stateWaitCellularReady, stateWaitCellularCloud,
      stateCellularCloudConnected, setActiveInterface] <;>
    (try split_ifs) <;> simp_all [cellularOnlyStates]

theorem cellularOnlyStates_runLoop (ec : EthernetCellular) (envs : List Env)
    (hp : ec.ethernetPresent = false) (h : cellularOnlyStates ec) :
    cellularOnlyStates (runLoop ec envs) ∧ (runLoop ec envs).ethernetPresent = false := by
  induction envs generalizing ec with
  | nil => exact ⟨h, hp⟩
  | cons env envs ih =>
      obtain ⟨h1, h2⟩ := cellularOnlyStates_loop ec env hp h
      exact ih (loop ec env).1 h2 h1

/-- C3: when no Ethernet adapter is detected during the initial Start
evaluation (`ethernetPresent` stays false), no later `loop()` call ever
enters `stateTryEthernet`; and, on any controller with `ethernetPresent`
false, `stateWaitCellularReady` remains itself whenever cellular is not
ready (timeout included), and `stateWaitCellularCloud` remains itself
whenever the cloud is not connected (timeout included). -/
theorem c3_no_ethernet_never_tryEthernet (ec0 : EthernetCellular) (env0 : Env)
    (envs : List Env)
    (h0 : ec0.stateHandler = State.start)
    (hp : ec0.ethernetPresent = false)
    (hm : env0.ethernetMacPresent = false) :
    (runLoop (loop ec0 env0).1 envs).stateHandler ≠ State.tryEthernet ∧
    (∀ (ec : EthernetCellular) (env : Env),
      (loop { ec with stateHandler := State.waitCellularReady, ethernetPresent := false }
        { env with cellularReady := false }).1.stateHandler = State.waitCellularReady) ∧
    (∀ (ec : EthernetCellular) (env : Env),
      (loop { ec with stateHandler := State.waitCellularCloud, ethernetPresent := false }
        { env with particleConnected := false }).1.stateHandler = State.waitCellularCloud) := by
  refine ⟨?_, ?_, ?_⟩
  · have hfirst : (loop ec0 env0).1.stateHandler = State.tryCellular ∧
        (loop ec0 env0).1.ethernetPresent = false := by
      simp [loop, stateStart, h0, hp, hm]
    obtain ⟨hc, he⟩ :=
      cellularOnlyStates_runLoop (loop ec0 env0).1 envs hfirst.2 (Or.inl hfirst.1)
    rcases hc with h | h | h | h <;> simp [h]
  · intro ec env
    simp only [loop, stateWaitCellularReady, setActiveInterface]
    split_ifs <;> simp_all
  · intro ec env
    simp only [loop, stateWaitCellularCloud, setActiveInterface]
    split_ifs <;> simp_all

/-- C3 witness: the property instantiated on the freshly constructed
controller (no adapter present) and the empty continuation. -/
theorem c3_no_ethernet_never_tryEthernet_witness :
    (runLoop (loop initialController ({} : Env)).1 []).stateHandler ≠ State.tryEthernet ∧
    (∀ (ec : EthernetCellular) (env : Env),
      (loop { ec with stateHandler := State.waitCellularReady, ethernetPresent := false }
        { env with cellularReady := false }).1.stateHandler = State.waitCellularReady) ∧
    (∀ (ec : EthernetCellular) (env : Env),
      (loop { ec with stateHandler := State.waitCellularCloud, ethernetPresent := false }
        { env with particleConnected := false }).1.stateHandler = State.waitCellularCloud) :=
  c3_no_ethernet_never_tryEthernet initialController {} [] rfl rfl rfl

/-- C4: one `loop()` call in state WaitWiredCloud (`stateWaitEthernetCloud`):
if the cloud session reports connected, the keep-alive is set to
`ethernetKeepAlive`, `activeInterface` becomes ETHERNET, the state-entry
time is recorded, and the state becomes EthernetCloudConnected; otherwise,
when the elapsed time has reached `ethernetCloudConnectTimeout`, the cloud
session and the Ethernet interface are disconnected and the state becomes
TryCellular (with `activeInterface` untouched); otherwise nothing changes
and no command is issued. -/
theorem c4_waitEthernetCloud_step (ec : EthernetCellular) (env : Env)
    (h : ec.stateHandler = State.waitEthernetCloud) :
    (env.particleConnected = true →
      (loop ec env).1.activeInterface = ActiveInterface.ETHERNET ∧
      Event.particleKeepAlive ec.ethernetKeepAlive ∈ (loop ec env).2 ∧
      (loop ec env).1.stateTime = m32 env.millis ∧
      (loop ec env).1.stateHandler = State.ethernetCloudConnected) ∧
    (env.particleConnected = false →
      (usub32 env.millis ec.stateTime : Int) ≥ ec.ethernetCloudConnectTimeout →
      Event.particleDisconnect ∈ (loop ec env).2 ∧
      Event.ethernetDisconnect ∈ (loop ec env).2 ∧
      (loop ec env).1.stateHandler = State.tryCellular ∧
      (loop ec env).1.activeInterface = ec.activeInterface) ∧
    (env.particleConnected = false →
      ¬ ((usub32 env.millis ec.stateTime : Int) ≥ ec.ethernetCloudConnectTimeout) →
      (loop ec env).1 = ec ∧ (loop ec env).2 = []) := by
  obtain ⟨sh, ep, st, eka, cka, rep, cct, ccct, ect, ecct, cbc, ai, cb⟩ := ec
  simp only at h
  subst h
  refine ⟨fun hc => ?_, fun hc ht => ?_, fun hc ht => ?_⟩ <;>
    simp only [loop, stateWaitEthernetCloud, setActiveInterface] <;>
    split_ifs <;> simp_all

/-- C4 witness: the connected branch at a concrete input. -/
theorem c4_waitEthernetCloud_step_witness :
    (loop { stateHandler := State.waitEthernetCloud }
        { particleConnected := true, millis := 7 }).1.activeInterface =
      ActiveInterface.ETHERNET ∧
    (loop { stateHandler := State.waitEthernetCloud }
        { particleConnected := true, millis := 7 }).1.stateHandler =
      State.ethernetCloudConnected :=
  ⟨((c4_waitEthernetCloud_step { stateHandler := State.waitEthernetCloud }
      { particleConnected := true, millis := 7 } rfl).1 rfl).1,
    ((c4_waitEthernetCloud_step { stateHandler := State.waitEthernetCloud }
      { particleConnected := true, millis := 7 } rfl).1 rfl).2.2.2⟩

/-- A controller sitting in WirelessCloudConnected since clock value 0, with
an Ethernet adapter present. -/
def c5Ec : EthernetCellular :=
  { stateHandler := State.cellularCloudConnected, ethernetPresent := true,
    activeInterface := ActiveInterface.CELLULAR, stateTime := 0 }

/-- A poll at clock value 300000 (= the default `retryEthernetPeriod`) with
the cloud session still connected. -/
def c5Env : Env := { particleConnected := true, millis := 300000 }

/-- C5, counterexample: in state WirelessCloudConnected with the session
connected, the retry period elapsed and an adapter present, the retry
branch runs (cloud disconnect issued, `activeInterface` set to NONE, state
becomes WirelessWaitDisconnectThenTryWired) but — contrary to the claim
that the controller "records the state-entry time" — `stateTime` is left at
its old value 0 instead of the current clock reading 300000. -/
theorem c5_counterexample :
    (loop c5Ec c5Env).1.stateHandler = State.cellularWaitDisconnectedThenTryEthernet ∧
    (loop c5Ec c5Env).1.activeInterface = ActiveInterface.NONE ∧
    Event.particleDisconnect ∈ (loop c5Ec c5Env).2 ∧
    (loop c5Ec c5Env).1.stateTime = 0 ∧
    (loop c5Ec c5Env).1.stateTime ≠ m32 c5Env.millis := by
  decide

/-- C5 (amended): in state WirelessCloudConnected, when the cloud session
is still connected, the elapsed time has reached `retryEthernetPeriod` and
an Ethernet adapter is present, one `loop()` call disconnects the cloud
session, sets `activeInterface` to NONE and transitions to
WirelessWaitDisconnectThenTryWired, leaving `stateTime` unchanged (the
entry timestamp is not re-recorded on this transition). -/
theorem c5_retry_wired_step (ec : EthernetCellular) (env : Env)
    (h : ec.stateHandler = State.cellularCloudConnected)
    (hc : env.particleConnected = true)
    (ht : (usub32 env.millis ec.stateTime : Int) ≥ ec.retryEthernetPeriod)
    (hp : ec.ethernetPresent = true) :
    Event.particleDisconnect ∈ (loop ec env).2 ∧
    (loop ec env).1.activeInterface = ActiveInterface.NONE ∧
    (loop ec env).1.stateTime = ec.stateTime ∧
    (loop ec env).1.stateHandler = State.cellularWaitDisconnectedThenTryEthernet := by
  obtain ⟨sh, ep, st, eka, cka, rep, cct, ccct, ect, ecct, cbc, ai, cb⟩ := ec
  simp only at h hp ht
  subst h
  subst hp
  simp only [loop, stateCellularCloudConnected, setActiveInterface] at *
  split_ifs <;> simp_all

/-- C5 witness: the amended step at the concrete input of the
counterexample. -/
theorem c5_retry_wired_step_witness :
    Event.particleDisconnect ∈ (loop c5Ec c5Env).2 ∧
    (loop c5Ec c5Env).1.stateHandler = State.cellularWaitDisconnectedThenTryEthernet :=
  ⟨(c5_retry_wired_step c5Ec c5Env rfl rfl (by decide) rfl).1,
    (c5_retry_wired_step c5Ec c5Env rfl rfl (by decide) rfl).2.2.2⟩

/-- C6: the controller's elapsed-time computation `millis() - stateTime`
(32-bit unsigned subtraction, `usub32`) returns the true elapsed duration
even when the millisecond counter has wrapped past its maximum between the
recording of `stateTime` (at true time t) and the current reading (at true
time t + d), for every true elapsed duration d below the counter's modulus;
hence every per-state timeout comparison in the state machine is
wraparound-safe. -/
theorem c6_wraparound_safe_elapsed (t d : Nat) (h : d < UINT32_MOD) :
    usub32 (m32 (t + d)) (m32 t) = d := by
  simp only [usub32, m32, UINT32_MOD] at *
  omega

/-- C6 witness: `stateTime` recorded 5 ticks before the wrap, read 95 ticks
after it: the computed elapsed duration is exactly 100. -/
theorem c6_wraparound_safe_elapsed_witness :
    usub32 (m32 (4294967291 + 100)) (m32 4294967291) = 100 :=
  c6_wraparound_safe_elapsed 4294967291 100 (by decide)

/-- C7: one `loop()` call in state TryWireless (`stateTryCellular`) sets
`activeInterface` to NONE (notifying the callback if the value changed),
then — when `cellularBackupColor` differs from the sentinel
`RGB_COLOR_CYAN` — applies an indicator theme overriding the
cloud-connecting, cloud-handshake and cloud-connected signal colors to
`cellularBackupColor`, and otherwise restores the default theme; then it
records the entry time, disconnects Ethernet, initiates the cellular
connect, and unconditionally moves to WaitCellularReady. -/
theorem c7_tryCellular_step (ec : EthernetCellular) (env : Env)
    (h : ec.stateHandler = State.tryCellular) :
    (loop ec env).1.activeInterface = ActiveInterface.NONE ∧
    (loop ec env).1.stateTime = m32 env.millis ∧
    (loop ec env).1.stateHandler = State.waitCellularReady ∧
    (loop ec env).2 =
      (if ec.activeInterface ≠ ActiveInterface.NONE then
        (if ec.interfaceChangeCallback then
          [Event.notifyInterfaceChange ec.activeInterface ActiveInterface.NONE]
        else [])
      else []) ++
      (if ec.cellularBackupColor ≠ RGB_COLOR_CYAN then
        [Event.themeSetColor LEDSignal.cloudConnecting ec.cellularBackupColor,
          Event.themeSetColor LEDSignal.cloudHandshake ec.cellularBackupColor,
          Event.themeSetColor LEDSignal.cloudConnected ec.cellularBackupColor,
          Event.themeApply]
      else [Event.themeRestoreDefault]) ++
      [Event.ethernetDisconnect, Event.cellularConnect] := by
  obtain ⟨sh, ep, st, eka, cka, rep, cct, ccct, ect, ecct, cbc, ai, cb⟩ := ec
  simp only at h
  subst h
  simp [loop, stateTryCellular, setActiveInterface]

/-- C7 witness: the step at the freshly constructed controller put in state
TryCellular (default backup color yellow, so the override theme is
applied). -/
theorem c7_tryCellular_step_witness :
    (loop { stateHandler := State.tryCellular } ({} : Env)).1.activeInterface =
      ActiveInterface.NONE ∧
    (loop { stateHandler := State.tryCellular } ({} : Env)).1.stateHandler =
      State.waitCellularReady :=
  ⟨(c7_tryCellular_step { stateHandler := State.tryCellular } {} rfl).1,
    (c7_tryCellular_step { stateHandler := State.tryCellular } {} rfl).2.2.1⟩

/-- C8, counterexample: the parameter type of `withEthernetKeepAlive`
(`std::chrono::seconds`, an at-least-35-bit signed count) admits the value
2147483648 = 2 ^ 31, which the setter stores exactly, but the getter's
`(int)` cast truncates it to -2147483648, so the setter-then-getter round
trip fails for that value of the parameter type. -/
theorem c8_counterexample :
    getEthernetKeepAlive (withEthernetKeepAlive initialController 2147483648) =
      -2147483648 ∧
    getEthernetKeepAlive (withEthernetKeepAlive initialController 2147483648) ≠
      2147483648 := by
  decide

/-- C8 (amended): for every configuration field, the builder-style setter
stores the given value, changing no other member (so the returned
controller is the given one with just that field updated, and calls can be
chained), and the matching getter returns the stored value — for the seven
chrono-duration fields provided the value is representable in the 32-bit
`int` their getters cast to, and for the `uint32_t` backup color for every
value below 2 ^ 32. -/
theorem c8_setter_getter_roundtrip (ec : EthernetCellular) (v : Int) (c : Nat)
    (h1 : -2147483648 ≤ v) (h2 : v < 2147483648) (h3 : c < UINT32_MOD) :
    getEthernetKeepAlive (withEthernetKeepAlive ec v) = v ∧
    withEthernetKeepAlive ec v = { ec with ethernetKeepAlive := v } ∧
    getCellularKeepAlive (withCellularKeepAlive ec v) = v ∧
    withCellularKeepAlive ec v = { ec with cellularKeepAlive := v } ∧
    getRetryEthernetPeriod (withRetryEthernetPeriod ec v) = v ∧
    withRetryEthernetPeriod ec v = { ec with retryEthernetPeriod := v } ∧
    getCellularConnectTimeout (withCellularConnectTimeout ec v) = v ∧
    withCellularConnectTimeout ec v = { ec with cellularConnectTimeout := v } ∧
    getCellularCloudConnectTimeout (withCellularCloudConnectTimeout ec v) = v ∧
    withCellularCloudConnectTimeout ec v = { ec with cellularCloudConnectTimeout := v } ∧
    getEthernetConnectTimeout (withEthernetConnectTimeout ec v) = v ∧
    withEthernetConnectTimeout ec v = { ec with ethernetConnectTimeout := v } ∧
    getEthernetCloudConnectTimeout (withEthernetCloudConnectTimeout ec v) = v ∧
    withEthernetCloudConnectTimeout ec v = { ec with ethernetCloudConnectTimeout := v } ∧
    getCellularBackupColor (withCellularBackupColor ec c) = c ∧
    withCellularBackupColor ec c = { ec with cellularBackupColor := c } := by
  have hv : toInt32 v = v := by
    simp only [toInt32]
    omega
  have hc : c % UINT32_MOD = c := Nat.mod_eq_of_lt h3
  refine ⟨hv, rfl, hv, rfl, hv, rfl, hv, rfl, hv, rfl, hv, rfl, hv, rfl, hc, ?_⟩
  simp [withCellularBackupColor, hc]

/-- C8 witness: round trip at the default keep-alive value 25 and the cyan
color value. -/
theorem c8_setter_getter_roundtrip_witness :
    getEthernetKeepAlive (withEthernetKeepAlive initialController 25) = 25 :=
  (c8_setter_getter_roundtrip initialController 25 65535 (by decide) (by decide)
    (by decide)).1

theorem loop_stateHandler_ne_start (ec : EthernetCellular) (env : Env) :
    (loop ec env).1.stateHandler ≠ State.start := by
  obtain ⟨sh, ep, st, eka, cka, rep, cct, ccct, ect, ecct, cbc, ai, cb⟩ := ec
  cases sh <;>
    simp only [loop, stateStart, stateTryEthernet, stateWaitEthernetReady,
      stateWaitEthernetCloud, stateEthernetCloudConnected, stateTryCellular,
      stateWaitCellularReady, stateWaitCellularCloud, stateCellularCloudConnected,
      stateCellularWaitDisconnectedThenTryEthernet, setActiveInterface] <;>
    (try split_ifs) <;> simp_all

theorem loop_ethernetPresent_eq (ec : EthernetCellular) (env : Env)
    (h : ec.stateHandler ≠ State.start) :
    (loop ec env).1.ethernetPresent = ec.ethernetPresent := by
  obtain ⟨sh, ep, st, eka, cka, rep, cct, ccct, ect, ecct, cbc, ai, cb⟩ := ec
  simp only at h
  cases sh
  case start => exact absurd rfl h
  all_goals
    simp only [loop, stateStart, stateTryEthernet, stateWaitEthernetReady,
      stateWaitEthernetCloud, stateEthernetCloudConnected, stateTryCellular,
      stateWaitCellularReady, stateWaitCellularCloud, stateCellularCloudConnected,
      stateCellularWaitDisconnectedThenTryEthernet, setActiveInterface] <;>
    (try split_ifs) <;> simp_all

theorem runLoop_no_start (ec : EthernetCellular) (envs : List Env)
    (h : ec.stateHandler ≠ State.start) :
    (runLoop ec envs).stateHandler ≠ State.start ∧
    (runLoop ec envs).ethernetPresent = ec.ethernetPresent := by
  induction envs generalizing ec with
  | nil => exact ⟨h, rfl⟩
  | cons env envs ih =>
      obtain ⟨a, b⟩ := ih (loop ec env).1 (loop_stateHandler_ne_start ec env)
      exact ⟨a, b.trans (loop_ethernetPresent_eq ec env h)⟩

/-- C9: after every `loop()` call the dispatch target is one of exactly the
ten named state functions (the enumeration `State` is exhaustive by
construction, mirroring that every assignment to `stateHandler` in the
source stores one of the ten members); once the first call has run, the
Start state is never occupied again, and therefore `ethernetPresent` keeps,
over every subsequent call, the value the first call latched. -/
theorem c9_ten_states_start_never_reentered (ec0 : EthernetCellular) (env0 : Env)
    (envs : List Env) :
    ((runLoop (loop ec0 env0).1 envs).stateHandler = State.start ∨
      (runLoop (loop ec0 env0).1 envs).stateHandler = State.tryEthernet ∨
      (runLoop (loop ec0 env0).1 envs).stateHandler = State.waitEthernetReady ∨
      (runLoop (loop ec0 env0).1 envs).stateHandler = State.waitEthernetCloud ∨
      (runLoop (loop ec0 env0).1 envs).stateHandler = State.ethernetCloudConnected ∨
      (runLoop (loop ec0 env0).1 envs).stateHandler = State.tryCellular ∨
      (runLoop (loop ec0 env0).1 envs).stateHandler = State.waitCellularReady ∨
      (runLoop (loop ec0 env0).1 envs).stateHandler = State.waitCellularCloud ∨
      (runLoop (loop ec0 env0).1 envs).stateHandler = State.cellularCloudConnected ∨
      (runLoop (loop ec0 env0).1 envs).stateHandler =
        State.cellularWaitDisconnectedThenTryEthernet) ∧
    (runLoop (loop ec0 env0).1 envs).stateHandler ≠ State.start ∧
    (runLoop (loop ec0 env0).1 envs).ethernetPresent = (loop ec0 env0).1.ethernetPresent := by
  have h := runLoop_no_start (loop ec0 env0).1 envs (loop_stateHandler_ne_start ec0 env0)
  refine ⟨?_, h.1, h.2⟩
  cases hs : (runLoop (loop ec0 env0).1 envs).stateHandler <;> simp [hs]

/-- C10: a cloud-session connect command is issued by a `loop()` call only
on the link-ready transitions WaitEthernetReady to WaitEthernetCloud and
WaitCellularReady to WaitCellularCloud; and the two cloud-drop transitions
(EthernetCloudConnected to WaitEthernetCloud, CellularCloudConnected to
WaitCellularCloud) issue no command at all to any collaborator — they
change only `stateHandler` and `stateTime`. -/
theorem c10_connect_only_on_link_ready (ec : EthernetCellular) (env : Env) :
    (Event.particleConnect ∈ (loop ec env).2 →
      (ec.stateHandler = State.waitEthernetReady ∧
        (loop ec env).1.stateHandler = State.waitEthernetCloud) ∨
      (ec.stateHandler = State.waitCellularReady ∧
        (loop ec env).1.stateHandler = State.waitCellularCloud)) ∧
    (ec.stateHandler = State.ethernetCloudConnected → env.particleConnected = false →
      (loop ec env).2 = [] ∧
      (loop ec env).1 =
        { ec with stateHandler := State.waitEthernetCloud, stateTime := m32 env.millis }) ∧
    (ec.stateHandler = State.cellularCloudConnected → env.particleConnected = false →
      (loop ec env).2 = [] ∧
      (loop ec env).1 =
        { ec with stateHandler := State.waitCellularCloud, stateTime := m32 env.millis }) := by
  obtain ⟨sh, ep, st, eka, cka, rep, cct, ccct, ect, ecct, cbc, ai, cb⟩ := ec
  refine ⟨?_, ?_, ?_⟩
  · cases sh <;>
      simp only [loop, stateStart, stateTryEthernet, stateWaitEthernetReady,
        stateWaitEthernetCloud, stateEthernetCloudConnected, stateTryCellular,
        stateWaitCellularReady, stateWaitCellularCloud, stateCellularCloudConnected,
        stateCellularWaitDisconnectedThenTryEthernet, setActiveInterface] <;>
      (try split_ifs) <;> simp_all
  · intro h hc
    simp only at h
    subst h
    simp [loop, stateEthernetCloudConnected, hc]
  · intro h hc
    simp only at h
    subst h
    simp [loop, stateCellularCloudConnected, hc]

end EthernetCellularRK
